import Mathlib

/-!
Verification of the Si5324 bring-up subsystem of
`artiq/gateware/targets/kc705_drtio_satellite.py`:
the i2c program compiler `get_i2c_program`, the two-stage reset/ready
gate `Si5324ResetClock`, and their composition with the instruction
sequencer in `Satellite.__init__`.

Machine integers are modelled as `Nat`; Python's float products
`int(sys_clk_freq*1.1e-6)` and `int(sys_clk_freq*11e-3)` are modelled
as exact rational truncation (`f * 11 / 10^7` and `f * 11 / 10^3` in
`Nat` division), which agrees with the source's float evaluation at the
frequency the target instantiates (156 MHz).
-/

set_option maxRecDepth 4096

namespace KC705Sat

/-! ## Bus instruction set and controller register map

The sequencer instruction constructors (`InstWrite`, `InstWait`,
`InstEnd`) and the i2c core's register map come from
`misoc.cores.sequencer` / `misoc.cores.i2c`, which the target imports.
-/

/-- Modelled from the spec: the tagged Instruction variant
(`Write{address, value}`, `WaitUntil{address, expected}`, `End`);
the concrete constructors `InstWrite`/`InstWait`/`InstEnd` are imported
by the source from `misoc.cores.sequencer`, which is outside this
repository. -/
inductive Inst where
  | InstWrite (addr : Nat) (data : Nat)
  | InstWait (addr : Nat) (data : Nat)
  | InstEnd
  deriving DecidableEq, Repr

open Inst

/-- Modelled from the spec: address of the bus transfer register of the
bus controller (`misoc.cores.i2c`, outside this repository); a distinct
code from the configuration register address. -/
def I2C_XFER_ADDR : Nat := 0

/-- Modelled from the spec: address of the dedicated configuration
register that receives the system-clock frequency in kHz
(`misoc.cores.i2c`, outside this repository). -/
def I2C_CONFIG_ADDR : Nat := 1

/-- Modelled from the spec: command/status bit codes of the bus
controller's transfer register (`misoc.cores.i2c`, outside this
repository): flag bits above the 8-bit data byte. -/
def I2C_ACK : Nat := 1 <<< 8

/-- Modelled from the spec: read-command flag bit of the transfer
register. -/
def I2C_READ : Nat := 1 <<< 9

/-- Modelled from the spec: write-byte command flag bit of the transfer
register; or-ed with the payload byte. -/
def I2C_WRITE : Nat := 1 <<< 10

/-- Modelled from the spec: start-condition command code of the
transfer register. -/
def I2C_START : Nat := 1 <<< 11

/-- Modelled from the spec: stop-condition command code of the transfer
register. -/
def I2C_STOP : Nat := 1 <<< 12

/-- Modelled from the spec: idle status value read back from the
transfer register when no transaction is in flight. -/
def I2C_IDLE : Nat := 1 <<< 13

/-! ## The compiled i2c program (`get_i2c_program`, source lines 17-77) -/

/-- Logical PLL divider constant `N1_HS` (source line 22). -/
def N1_HS : Nat := 6

/-- Logical PLL divider constant `NC1_LS` (source line 23). -/
def NC1_LS : Nat := 7

/-- Logical PLL divider constant `N2_HS` (source line 24). -/
def N2_HS : Nat := 6

/-- Logical PLL divider constant `N2_LS` (source line 25). -/
def N2_LS : Nat := 20111

/-- Logical PLL divider constant `N31` (source line 26). -/
def N31 : Nat := 2513

/-- Logical PLL divider constant `N32` (source line 27). -/
def N32 : Nat := 4596

/-- The table of i2c write transactions (source lines 29-55): first the
PCA9548 channel select, then the 21 Si5324 register writes. Each entry
lists the octets of one bus transaction. -/
def i2c_sequence : List (List Nat) :=
  [ [0x74 <<< 1, 1 <<< 7],
    [0x68 <<< 1, 0,   0b01010000],
    [0x68 <<< 1, 1,   0b11100100],
    [0x68 <<< 1, 2,   0b0010 ||| (4 <<< 4)],
    [0x68 <<< 1, 3,   0b0101 ||| 0x10],
    [0x68 <<< 1, 4,   0b10010010],
    [0x68 <<< 1, 6,            0x07],
    [0x68 <<< 1, 25,  (N1_HS  <<< 5 ) &&& 0xff],
    [0x68 <<< 1, 31,  (NC1_LS >>> 16) &&& 0xff],
    [0x68 <<< 1, 32,  (NC1_LS >>> 8 ) &&& 0xff],
    [0x68 <<< 1, 33,  (NC1_LS)        &&& 0xff],
    [0x68 <<< 1, 40,  (N2_HS  <<< 5 ) &&& 0xff |||
                      (N2_LS  >>> 16) &&& 0xff],
    [0x68 <<< 1, 41,  (N2_LS  >>> 8 ) &&& 0xff],
    [0x68 <<< 1, 42,  (N2_LS)         &&& 0xff],
    [0x68 <<< 1, 43,  (N31    >>> 16) &&& 0xff],
    [0x68 <<< 1, 44,  (N31    >>> 8)  &&& 0xff],
    [0x68 <<< 1, 45,  (N31)           &&& 0xff],
    [0x68 <<< 1, 46,  (N32    >>> 16) &&& 0xff],
    [0x68 <<< 1, 47,  (N32    >>> 8)  &&& 0xff],
    [0x68 <<< 1, 48,  (N32)           &&& 0xff],
    [0x68 <<< 1, 137,          0x01],
    [0x68 <<< 1, 136,          0x40] ]

/-- `get_i2c_program` (source lines 57-77): the frequency-configuration
write, then for each transaction of `i2c_sequence` a start command, the
payload writes and a stop command, each followed by a wait for the idle
status, and a terminating `InstEnd`. `int(sys_clk_freq/1e3)` is
truncating division by 1000. -/
def get_i2c_program (sys_clk_freq : Nat) : List Inst :=
  [InstWrite I2C_CONFIG_ADDR (sys_clk_freq / 1000)]
  ++ (i2c_sequence.flatMap fun subseq =>
        [InstWrite I2C_XFER_ADDR I2C_START,
         InstWait I2C_XFER_ADDR I2C_IDLE]
        ++ (subseq.flatMap fun octet =>
              [InstWrite I2C_XFER_ADDR (I2C_WRITE ||| octet),
               InstWait I2C_XFER_ADDR I2C_IDLE])
        ++ [InstWrite I2C_XFER_ADDR I2C_STOP,
            InstWait I2C_XFER_ADDR I2C_IDLE])
  ++ [InstEnd]

/-- The part of the compiled program after the frequency-configuration
write; it does not depend on the frequency. -/
def i2c_program_tail : List Inst :=
  (i2c_sequence.flatMap fun subseq =>
        [InstWrite I2C_XFER_ADDR I2C_START,
         InstWait I2C_XFER_ADDR I2C_IDLE]
        ++ (subseq.flatMap fun octet =>
              [InstWrite I2C_XFER_ADDR (I2C_WRITE ||| octet),
               InstWait I2C_XFER_ADDR I2C_IDLE])
        ++ [InstWrite I2C_XFER_ADDR I2C_STOP,
            InstWait I2C_XFER_ADDR I2C_IDLE])
  ++ [InstEnd]

/-! ## The reset/ready gate (`Si5324ResetClock`, source lines 80-106) -/

/-- `reset_val = int(sys_clk_freq*1.1e-6)` (source line 87): truncation
of the exact product `f * 11 / 10^7`. -/
def reset_val (sys_clk_freq : Nat) : Nat := sys_clk_freq * 11 / 10000000

/-- `ready_val = int(sys_clk_freq*11e-3)` (source line 97): truncation
of the exact product `f * 11 / 10^3`. -/
def ready_val (sys_clk_freq : Nat) : Nat := sys_clk_freq * 11 / 1000

/-- The synchronous registers of `Si5324ResetClock`: `reset_ctr`,
`reset_done`, the `si5324_rst_n` output, `ready_ctr` and the
`si5324_not_ready` output (source lines 82-106). Counters are `Nat`;
the source only decrements them when they are nonzero. -/
structure GateState where
  reset_ctr : Nat
  reset_done : Bool
  si5324_rst_n : Bool
  ready_ctr : Nat
  si5324_not_ready : Bool
  deriving DecidableEq, Repr

/-- Register reset values of `Si5324ResetClock` (migen `reset=`
arguments, source lines 82, 88, 98; `reset_done` and `si5324_rst_n`
reset to 0). -/
def gateInit (f : Nat) : GateState :=
  { reset_ctr := reset_val f
    reset_done := false
    si5324_rst_n := false
    ready_ctr := ready_val f
    si5324_not_ready := true }

/-- One clock edge of `Si5324ResetClock`'s two `self.sync` blocks
(source lines 89-95 and 99-106); both blocks read the current register
values and update in parallel. -/
def gateTick (s : GateState) : GateState :=
  { reset_ctr := if s.reset_ctr ≠ 0 then s.reset_ctr - 1 else s.reset_ctr
    reset_done := if s.reset_ctr ≠ 0 then s.reset_done else true
    si5324_rst_n := if s.reset_ctr ≠ 0 then s.si5324_rst_n else true
    ready_ctr :=
      if s.reset_done then
        (if s.ready_ctr ≠ 0 then s.ready_ctr - 1 else s.ready_ctr)
      else s.ready_ctr
    si5324_not_ready :=
      if s.reset_done then
        (if s.ready_ctr ≠ 0 then s.si5324_not_ready else false)
      else s.si5324_not_ready }

/-- One clock edge with an external reset input: a migen clock-domain
reset on an edge forces every register of the module back to its reset
value; otherwise the edge is `gateTick`. -/
def gateStep (f : Nat) (s : GateState) (rst : Bool) : GateState :=
  if rst then gateInit f else gateTick s

/-- Run the gate from its reset state over a list of per-edge external
reset inputs (`false` = plain tick, `true` = edge with external
reset asserted). -/
def gateRun (f : Nat) (evs : List Bool) : GateState :=
  evs.foldl (gateStep f) (gateInit f)

/-- The three phases of the gate as the spec names them. -/
inductive GatePhase where
  | ResetHold
  | ReadySettle
  | Ready
  deriving DecidableEq, Repr

/-- The spec's phase view of a gate state: `Ready` once the not-ready
output is deasserted, `ReadySettle` once the reset hold is done,
`ResetHold` before. -/
def phase (s : GateState) : GatePhase :=
  if s.si5324_not_ready = false then .Ready
  else if s.reset_done then .ReadySettle
  else .ResetHold

/-- Forward order on phases: `ResetHold < ReadySettle < Ready`. -/
def phaseRank : GatePhase → Nat
  | .ResetHold => 0
  | .ReadySettle => 1
  | .Ready => 2

/-- Number of elapsed plain ticks since the last external reset (the
whole trace length when it contains no reset). -/
def trailingTicks (evs : List Bool) : Nat :=
  evs.foldl (fun acc e => if e then 0 else acc + 1) 0

/-! ### Trajectory of the gate from its reset state -/

/-! ## The instruction sequencer

`misoc.cores.sequencer.Sequencer` is imported by the source and is not
part of this repository, so it is modelled from the spec (sections 3,
4.2 and 5).
-/

/-- Modelled from the spec: `SequencerState = {programCounter, halted}`
(spec section 3); the `misoc.cores.sequencer.Sequencer` state is not
under this repository's sources. -/
structure SeqState where
  pc : Nat
  halted : Bool
  deriving DecidableEq, Repr

/-- The sequencer's state after an external reset: program counter 0,
not halted. -/
def seqInit : SeqState := { pc := 0, halted := false }

/-- Modelled from the spec: one tick of the Sequencer (spec section
4.2), with the bus abstracted as a read function from register address
to value. If held in reset it forces `pc = 0` and takes no bus action;
if halted it does nothing; otherwise it inspects `program[pc]`: a
`Write` issues the bus write (the bus controller accepts it and returns
immediately, spec section 4.3) and advances, a `WaitUntil` advances
exactly when the read value equals the expected value, and `End` halts.
Returns the next state and the bus write issued this tick, if any. -/
def seqStep (program : List Inst) (rst : Bool) (read : Nat → Nat)
    (s : SeqState) : SeqState × Option (Nat × Nat) :=
  if rst then (seqInit, none)
  else if s.halted then (s, none)
  else
    match program[s.pc]? with
    | some (Inst.InstWrite a v) => ({ s with pc := s.pc + 1 }, some (a, v))
    | some (Inst.InstWait a v) =>
        if read a = v then ({ s with pc := s.pc + 1 }, none) else (s, none)
    | some Inst.InstEnd => ({ s with halted := true }, none)
    | none => (s, none)

/-! ## Composition of gate and sequencer (`Satellite.__init__`)

Source lines 143-152: the program is compiled for
`sys_clk_freq = 156000000`, the sequencer is wrapped in a
`ResetInserter`, and its reset input is driven combinationally from the
gate: `sequencer.reset.eq(si5324_reset_clock.si5324_not_ready)` — the
gate's output is sampled by the sequencer on the tick it changes.
-/

/-- Joint state of the reset/ready gate and the sequencer. -/
structure SatState where
  gate : GateState
  seq : SeqState
  deriving DecidableEq, Repr

/-- Reset-value state of the composed system. -/
def satInit (f : Nat) : SatState := { gate := gateInit f, seq := seqInit }

/-- One tick of the composed system: the gate ticks, and the sequencer
steps with its reset input wired to the gate's current
`si5324_not_ready` output (source line 151). `read` abstracts the bus
register read-back this tick. -/
def satStep (f : Nat) (read : Nat → Nat) (s : SatState) : SatState :=
  { gate := gateTick s.gate
    seq := (seqStep (get_i2c_program f) s.gate.si5324_not_ready read
              s.seq).1 }

/-- State of the composed system after `t` ticks, with `reads t` the
bus read-back function on tick `t`. -/
def satRun (f : Nat) (reads : Nat → Nat → Nat) : Nat → SatState
  | 0 => satInit f
  | t + 1 => satStep f (reads t) (satRun f reads t)

/-- The bus write the sequencer issues on tick `t` of the composed
system, if any. -/
def satAction (f : Nat) (reads : Nat → Nat → Nat) (t : Nat) :
    Option (Nat × Nat) :=
  (seqStep (get_i2c_program f) (satRun f reads t).gate.si5324_not_ready
    (reads t) (satRun f reads t).seq).2

/-! ## Mock bus controller

Modelled from the spec (section 4.3): the bus controller reports
`Idle`/`Busy` through a status read of the transfer register; any
command written to the transfer register begins a transaction and the
status returns to idle only when the transaction completes, which the
environment signals on a later tick.
-/

/-- Modelled from the spec: bus controller state, a single busy flag
(spec section 4.3). -/
structure BusState where
  busy : Bool
  deriving DecidableEq, Repr

/-- Modelled from the spec: bus register read-back; reading the
transfer register yields the idle status value exactly when no
transaction is in flight (a busy read returns a non-idle value). -/
def busRead (b : BusState) (a : Nat) : Nat :=
  if a = I2C_XFER_ADDR then (if b.busy then 0 else I2C_IDLE) else 0

/-- Joint state of the sequencer and the mock bus. -/
structure SeqBusState where
  seq : SeqState
  bus : BusState
  deriving DecidableEq, Repr

/-- Start state of the sequencer/mock-bus pair: sequencer at
instruction 0, bus idle. -/
def seqBusInit : SeqBusState := { seq := seqInit, bus := { busy := false } }

/-- One tick of the sequencer against the mock bus: the environment
input `complete` first ends the pending transaction, if any; then the
sequencer steps, reading the current status, and any write it issues to
the transfer register begins a new transaction. -/
def seqBusStep (program : List Inst) (complete : Bool) (s : SeqBusState) :
    SeqBusState :=
  let bus1 : BusState := { busy := s.bus.busy && !complete }
  let st := seqStep program false (busRead bus1) s.seq
  { seq := st.1
    bus := { busy := bus1.busy ||
               (match st.2 with
                | some (a, _) => a == I2C_XFER_ADDR
                | none => false) } }

/-- State of the sequencer/mock-bus pair after `t` ticks with
completion input stream `completes`. -/
def seqBusRun (program : List Inst) (completes : Nat → Bool) :
    Nat → SeqBusState
  | 0 => seqBusInit
  | t + 1 => seqBusStep program (completes t) (seqBusRun program completes t)

/-- `true` exactly when, on tick `t`, the sequencer issues a command to
the bus transfer register while the bus still reports a transaction in
flight (busy) on that tick. -/
def issueWhileBusy (program : List Inst) (completes : Nat → Bool)
    (t : Nat) : Bool :=
  match (seqStep program false
      (busRead { busy := (seqBusRun program completes t).bus.busy
                   && !(completes t) })
      (seqBusRun program completes t).seq).2 with
  | some (a, _) =>
      (a == I2C_XFER_ADDR)
        && ((seqBusRun program completes t).bus.busy && !(completes t))
  | none => false

/-! ## Further definitions used by the claims -/

/-- A gate state reachable from the reset state by some sequence of
clock edges with arbitrary external reset inputs. -/
def Reachable (f : Nat) (s : GateState) : Prop :=
  ∃ evs : List Bool, gateRun f evs = s

/-- Run of the sequencer alone (reset input held deasserted), from an
arbitrary start state, with `reads t` the bus read-back on tick `t`. -/
def seqRun (program : List Inst) (reads : Nat → Nat → Nat)
    (s0 : SeqState) : Nat → SeqState
  | 0 => s0
  | t + 1 => (seqStep program false (reads t) (seqRun program reads s0 t)).1

/-- `true` for a write instruction addressed to the bus transfer
register. -/
def isXferWrite : Inst → Bool
  | Inst.InstWrite a _ => a == I2C_XFER_ADDR
  | _ => false

/-- `true` when every write to the bus transfer register in the list is
immediately followed by a wait for the idle status of the transfer
register (and no such write is last). -/
def writesFollowedByWait : List Inst → Bool
  | [] => true
  | [x] => !(isXferWrite x)
  | x :: y :: rest =>
      (!(isXferWrite x) || (y == Inst.InstWait I2C_XFER_ADDR I2C_IDLE))
        && writesFollowedByWait (y :: rest)

/-- Modelled from the spec's words (the claimed program shape): one
frequency-configuration write, then per sub-sequence a start command, a
wait, per payload byte a write command and a wait, a stop command and a
wait, and a terminating `End`. Stated separately from
`get_i2c_program` so the compiled program can be compared against the
claimed shape. -/
def specProgramShape (f : Nat) (subseqs : List (List Nat)) : List Inst :=
  Inst.InstWrite I2C_CONFIG_ADDR (f / 1000) ::
  ((subseqs.flatMap fun sub =>
      [Inst.InstWrite I2C_XFER_ADDR I2C_START,
       Inst.InstWait I2C_XFER_ADDR I2C_IDLE]
      ++ (sub.flatMap fun octet =>
            [Inst.InstWrite I2C_XFER_ADDR (I2C_WRITE ||| octet),
             Inst.InstWait I2C_XFER_ADDR I2C_IDLE])
      ++ [Inst.InstWrite I2C_XFER_ADDR I2C_STOP,
          Inst.InstWait I2C_XFER_ADDR I2C_IDLE])
    ++ [Inst.InstEnd])

/-- The six bus instructions a device-register write transaction
`[0x68 <<< 1, reg, val]` compiles to: chip-address byte, register byte
and value byte, each a write command followed by a wait for idle. -/
def regWriteBlock (reg val : Nat) : List Inst :=
  [Inst.InstWrite I2C_XFER_ADDR (I2C_WRITE ||| (0x68 <<< 1)),
   Inst.InstWait I2C_XFER_ADDR I2C_IDLE,
   Inst.InstWrite I2C_XFER_ADDR (I2C_WRITE ||| reg),
   Inst.InstWait I2C_XFER_ADDR I2C_IDLE,
   Inst.InstWrite I2C_XFER_ADDR (I2C_WRITE ||| val),
   Inst.InstWait I2C_XFER_ADDR I2C_IDLE]

/-- Invariant tying the mock bus to the sequencer: whenever a
transaction is in flight, the sequencer is parked on the wait-for-idle
instruction that follows the command that began it. -/
def SeqBusInv (program : List Inst) (s : SeqBusState) : Prop :=
  s.bus.busy = true →
    program[s.seq.pc]? = some (Inst.InstWait I2C_XFER_ADDR I2C_IDLE)

/-- Modelled from the spec's words: `ceil(f × 1.1e-6)` as exact
rational ceiling, the spec's claimed ResetHold counter load. -/
def specResetHoldCeil (f : Nat) : Nat := (f * 11 + 9999999) / 10000000

/-- Modelled from the spec's words: `ceil(f × 11e-3)` as exact rational
ceiling, the spec's claimed ReadySettle counter load. -/
def specReadySettleCeil (f : Nat) : Nat := (f * 11 + 999) / 1000

/-! ## Lemmas: trajectory of the gate from its reset state -/

theorem gateTick_iterate_le (f : Nat) {t : Nat} (ht : t ≤ reset_val f) :
    gateTick^[t] (gateInit f) =
      { reset_ctr := reset_val f - t
        reset_done := false
        si5324_rst_n := false
        ready_ctr := ready_val f
        si5324_not_ready := true } := by
  induction t with
  | zero => simp [gateInit]
  | succ n ih =>
      have hn : n ≤ reset_val f := Nat.le_of_succ_le ht
      have hpos : reset_val f - n ≠ 0 := by omega
      rw [Function.iterate_succ_apply', ih hn]
      simp [gateTick, hpos]
      omega

theorem gateTick_iterate_reset_done (f : Nat) :
    gateTick^[reset_val f + 1] (gateInit f) =
      { reset_ctr := 0
        reset_done := true
        si5324_rst_n := true
        ready_ctr := ready_val f
        si5324_not_ready := true } := by
  rw [Function.iterate_succ_apply', gateTick_iterate_le f (Nat.le_refl _)]
  simp [gateTick]

theorem gateTick_iterate_settle (f : Nat) {j : Nat} (hj : j ≤ ready_val f) :
    gateTick^[reset_val f + 1 + j] (gateInit f) =
      { reset_ctr := 0
        reset_done := true
        si5324_rst_n := true
        ready_ctr := ready_val f - j
        si5324_not_ready := true } := by
  induction j with
  | zero => simpa using gateTick_iterate_reset_done f
  | succ n ih =>
      have hn : n ≤ ready_val f := Nat.le_of_succ_le hj
      have hpos : ready_val f - n ≠ 0 := by omega
      rw [show reset_val f + 1 + (n + 1) = (reset_val f + 1 + n) + 1 by omega,
        Function.iterate_succ_apply', ih hn]
      simp [gateTick, hpos]
      omega

theorem gateTick_iterate_ready (f : Nat) :
    gateTick^[reset_val f + ready_val f + 2] (gateInit f) =
      { reset_ctr := 0
        reset_done := true
        si5324_rst_n := true
        ready_ctr := 0
        si5324_not_ready := false } := by
  rw [show reset_val f + ready_val f + 2 = (reset_val f + 1 + ready_val f) + 1
      by omega,
    Function.iterate_succ_apply', gateTick_iterate_settle f (Nat.le_refl _)]
  simp [gateTick]

theorem gateTick_not_ready_before (f : Nat) {t : Nat}
    (ht : t < reset_val f + ready_val f + 2) :
    (gateTick^[t] (gateInit f)).si5324_not_ready = true := by
  rcases Nat.lt_or_ge t (reset_val f + 1) with h | h
  · rw [gateTick_iterate_le f (Nat.lt_succ_iff.mp h)]
  · have hj : t = reset_val f + 1 + (t - (reset_val f + 1)) := by omega
    have hle : t - (reset_val f + 1) ≤ ready_val f := by omega
    rw [hj, gateTick_iterate_settle f hle]

theorem gateRun_foldl_iterate (f : Nat) (evs : List Bool) : ∀ n : Nat,
    evs.foldl (gateStep f) (gateTick^[n] (gateInit f)) =
      gateTick^[evs.foldl (fun acc e => if e then 0 else acc + 1) n]
        (gateInit f) := by
  induction evs with
  | nil => intro n; rfl
  | cons e rest ih =>
      intro n
      cases e with
      | false =>
          have h1 : gateStep f (gateTick^[n] (gateInit f)) false =
              gateTick^[n + 1] (gateInit f) := by
            simp [gateStep, Function.iterate_succ_apply']
          simpa [List.foldl_cons, h1] using ih (n + 1)
      | true =>
          have h1 : gateStep f (gateTick^[n] (gateInit f)) true =
              gateTick^[0] (gateInit f) := by simp [gateStep]
          simpa [List.foldl_cons, h1] using ih 0

theorem gateRun_eq_iterate (f : Nat) (evs : List Bool) :
    gateRun f evs = gateTick^[trailingTicks evs] (gateInit f) := by
  have h := gateRun_foldl_iterate f evs 0
  simpa [gateRun, trailingTicks] using h

/-! ### Basic facts about the compiled program -/

theorem get_i2c_program_eq_cons (f : Nat) :
    get_i2c_program f =
      Inst.InstWrite I2C_CONFIG_ADDR (f / 1000) :: i2c_program_tail := rfl

theorem i2c_program_tail_length : i2c_program_tail.length = 219 := by decide

theorem isXferWrite_config (v : Nat) :
    isXferWrite (Inst.InstWrite I2C_CONFIG_ADDR v) = false := rfl

theorem writesFollowedByWait_cons (x : Inst) (l : List Inst)
    (h1 : isXferWrite x = false) (h2 : writesFollowedByWait l = true) :
    writesFollowedByWait (x :: l) = true := by
  cases l with
  | nil => simp [writesFollowedByWait, h1]
  | cons y rest => simp [writesFollowedByWait, h1] at h2 ⊢; exact h2

theorem i2c_program_tail_wfw :
    writesFollowedByWait i2c_program_tail = true := by decide

theorem get_i2c_program_wfw (f : Nat) :
    writesFollowedByWait (get_i2c_program f) = true := by
  rw [get_i2c_program_eq_cons]
  exact writesFollowedByWait_cons _ _ (isXferWrite_config _) i2c_program_tail_wfw

theorem writesFollowedByWait_get (l : List Inst)
    (h : writesFollowedByWait l = true) :
    ∀ i v, l[i]? = some (Inst.InstWrite I2C_XFER_ADDR v) →
      l[i + 1]? = some (Inst.InstWait I2C_XFER_ADDR I2C_IDLE) := by
  induction l with
  | nil => intro i v hi; simp at hi
  | cons x rest ih =>
      intro i v hi
      cases rest with
      | nil =>
          cases i with
          | zero =>
              simp at hi
              subst hi
              simp [writesFollowedByWait, isXferWrite] at h
          | succ n => simp at hi
      | cons y rest2 =>
          simp only [writesFollowedByWait, Bool.and_eq_true, Bool.or_eq_true,
            Bool.not_eq_true', beq_iff_eq] at h
          cases i with
          | zero =>
              simp at hi
              subst hi
              rcases h.1 with hx | hy
              · simp [isXferWrite] at hx
              · simp [hy]
          | succ n =>
              have hi2 : (y :: rest2)[n]? =
                  some (Inst.InstWrite I2C_XFER_ADDR v) := by simpa using hi
              simpa using ih h.2 n v hi2

theorem xferWrite_followed_by_wait (f : Nat) (i v : Nat)
    (h : (get_i2c_program f)[i]? = some (Inst.InstWrite I2C_XFER_ADDR v)) :
    (get_i2c_program f)[i + 1]? =
      some (Inst.InstWait I2C_XFER_ADDR I2C_IDLE) :=
  writesFollowedByWait_get _ (get_i2c_program_wfw f) i v h

/-! ### The composed system: gate projection and sequencer hold -/

theorem satRun_gate (f : Nat) (reads : Nat → Nat → Nat) (t : Nat) :
    (satRun f reads t).gate = gateTick^[t] (gateInit f) := by
  induction t with
  | zero => rfl
  | succ n ih =>
      rw [show satRun f reads (n + 1) = satStep f (reads n) (satRun f reads n)
          from rfl, Function.iterate_succ_apply']
      simp [satStep, ih]

theorem satRun_seq_init (f : Nat) (reads : Nat → Nat → Nat) {t : Nat}
    (ht : t ≤ reset_val f + ready_val f + 2) :
    (satRun f reads t).seq = seqInit := by
  induction t with
  | zero => rfl
  | succ n ih =>
      have hn : n < reset_val f + ready_val f + 2 := Nat.lt_of_succ_le ht
      rw [show satRun f reads (n + 1) = satStep f (reads n) (satRun f reads n)
          from rfl]
      have hnr : (satRun f reads n).gate.si5324_not_ready = true := by
        rw [satRun_gate]; exact gateTick_not_ready_before f hn
      simp [satStep, seqStep, hnr]

theorem satAction_none (f : Nat) (reads : Nat → Nat → Nat) {t : Nat}
    (ht : t < reset_val f + ready_val f + 2) :
    satAction f reads t = none := by
  have hnr : (satRun f reads t).gate.si5324_not_ready = true := by
    rw [satRun_gate]; exact gateTick_not_ready_before f ht
  simp [satAction, seqStep, hnr]

theorem satAction_first (f : Nat) (reads : Nat → Nat → Nat) :
    satAction f reads (reset_val f + ready_val f + 2) =
      some (I2C_CONFIG_ADDR, f / 1000) := by
  have hnr : (satRun f reads (reset_val f + ready_val f + 2)).gate.si5324_not_ready
      = false := by
    rw [satRun_gate, gateTick_iterate_ready]
  have hseq : (satRun f reads (reset_val f + ready_val f + 2)).seq = seqInit :=
    satRun_seq_init f reads (Nat.le_refl _)
  simp [satAction, seqStep, hnr, hseq, seqInit, get_i2c_program_eq_cons]


/-! ### The sequencer against the mock bus -/

theorem seqStep_halted (program : List Inst) (read : Nat → Nat)
    (s : SeqState) (hh : s.halted = true) :
    seqStep program false read s = (s, none) := by
  simp [seqStep, hh]

theorem seqStep_write (program : List Inst) (read : Nat → Nat)
    (s : SeqState) (a v : Nat) (hh : s.halted = false)
    (hp : program[s.pc]? = some (Inst.InstWrite a v)) :
    seqStep program false read s = ({ s with pc := s.pc + 1 }, some (a, v)) := by
  simp [seqStep, hh, hp]

theorem seqStep_wait_stay (program : List Inst) (read : Nat → Nat)
    (s : SeqState) (a v : Nat) (hh : s.halted = false)
    (hp : program[s.pc]? = some (Inst.InstWait a v)) (hr : read a ≠ v) :
    seqStep program false read s = (s, none) := by
  simp [seqStep, hh, hp, hr]

theorem seqStep_wait_advance (program : List Inst) (read : Nat → Nat)
    (s : SeqState) (a v : Nat) (hh : s.halted = false)
    (hp : program[s.pc]? = some (Inst.InstWait a v)) (hr : read a = v) :
    seqStep program false read s = ({ s with pc := s.pc + 1 }, none) := by
  simp [seqStep, hh, hp, hr]

theorem seqStep_end (program : List Inst) (read : Nat → Nat)
    (s : SeqState) (hh : s.halted = false)
    (hp : program[s.pc]? = some Inst.InstEnd) :
    seqStep program false read s = ({ s with halted := true }, none) := by
  simp [seqStep, hh, hp]

theorem seqStep_outside (program : List Inst) (read : Nat → Nat)
    (s : SeqState) (hh : s.halted = false) (hp : program[s.pc]? = none) :
    seqStep program false read s = (s, none) := by
  simp [seqStep, hh, hp]

theorem seqBusStep_eq (program : List Inst) (complete : Bool)
    (s : SeqBusState) :
    seqBusStep program complete s =
      { seq := (seqStep program false
          (busRead { busy := s.bus.busy && !complete }) s.seq).1
        bus := { busy := (s.bus.busy && !complete) ||
          (match (seqStep program false
              (busRead { busy := s.bus.busy && !complete }) s.seq).2 with
           | some (a, _) => a == I2C_XFER_ADDR
           | none => false) } } := rfl

theorem busRead_busy_ne_idle (b : Bool) (hb : b = true) :
    busRead { busy := b } I2C_XFER_ADDR ≠ I2C_IDLE := by
  simp [busRead, hb, I2C_IDLE]

theorem seqBusStep_preserves (program : List Inst)
    (hprog : ∀ i v, program[i]? = some (Inst.InstWrite I2C_XFER_ADDR v) →
      program[i + 1]? = some (Inst.InstWait I2C_XFER_ADDR I2C_IDLE))
    (complete : Bool) (s : SeqBusState) (h : SeqBusInv program s) :
    SeqBusInv program (seqBusStep program complete s) := by
  unfold SeqBusInv at h ⊢
  intro hcon
  rw [seqBusStep_eq] at hcon ⊢
  cases hb : (s.bus.busy && !complete) with
  | true =>
      have hbusy : s.bus.busy = true := ((Bool.and_eq_true _ _).mp hb).1
      have hpcw := h hbusy
      cases hh : s.seq.halted with
      | true =>
          rw [seqStep_halted program _ s.seq hh]
          exact hpcw
      | false =>
          rw [seqStep_wait_stay program _ s.seq _ _ hh hpcw
            (busRead_busy_ne_idle true rfl)]
          exact hpcw
  | false =>
      rw [hb] at hcon
      cases hh : s.seq.halted with
      | true => rw [seqStep_halted program _ s.seq hh] at hcon; simp at hcon
      | false =>
          cases hp : program[s.seq.pc]? with
          | none => rw [seqStep_outside program _ s.seq hh hp] at hcon; simp at hcon
          | some inst =>
              cases inst with
              | InstWrite a v =>
                  rw [seqStep_write program _ s.seq a v hh hp] at hcon ⊢
                  simp at hcon
                  have haeq : a = I2C_XFER_ADDR := hcon
                  subst haeq
                  exact hprog _ _ hp
              | InstWait a v =>
                  by_cases hr : busRead { busy := false } a = v
                  · rw [seqStep_wait_advance program _ s.seq a v hh hp hr] at hcon
                    simp at hcon
                  · rw [seqStep_wait_stay program _ s.seq a v hh hp hr] at hcon
                    simp at hcon
              | InstEnd =>
                  rw [seqStep_end program _ s.seq hh hp] at hcon
                  simp at hcon

theorem seqBusRun_inv (program : List Inst)
    (hprog : ∀ i v, program[i]? = some (Inst.InstWrite I2C_XFER_ADDR v) →
      program[i + 1]? = some (Inst.InstWait I2C_XFER_ADDR I2C_IDLE))
    (completes : Nat → Bool) (t : Nat) :
    SeqBusInv program (seqBusRun program completes t) := by
  induction t with
  | zero => intro hcon; simp [seqBusRun, seqBusInit] at hcon
  | succ n ih =>
      exact seqBusStep_preserves program hprog (completes n) _ ih

theorem issueWhileBusy_false (program : List Inst)
    (hprog : ∀ i v, program[i]? = some (Inst.InstWrite I2C_XFER_ADDR v) →
      program[i + 1]? = some (Inst.InstWait I2C_XFER_ADDR I2C_IDLE))
    (completes : Nat → Bool) (t : Nat) :
    issueWhileBusy program completes t = false := by
  have hinv := seqBusRun_inv program hprog completes t
  unfold issueWhileBusy
  cases hb : ((seqBusRun program completes t).bus.busy && !(completes t)) with
  | false =>
      cases hst : (seqStep program false (busRead { busy := false })
          (seqBusRun program completes t).seq).2 with
      | none => simp [hst]
      | some av =>
          obtain ⟨a, v⟩ := av
          simp [hst]
  | true =>
      have hbusy : (seqBusRun program completes t).bus.busy = true :=
        ((Bool.and_eq_true _ _).mp hb).1
      have hpcw := hinv hbusy
      cases hh : (seqBusRun program completes t).seq.halted with
      | true =>
          rw [seqStep_halted program _ _ hh]
      | false =>
          rw [seqStep_wait_stay program _ _ _ _ hh hpcw
            (busRead_busy_ne_idle true rfl)]

/-! ### Numeric facts at the instantiated frequency (156 MHz) -/

theorem reset_val_156 : reset_val 156000000 = 171 := by decide

theorem ready_val_156 : ready_val 156000000 = 1716000 := by decide

/-! ## Claims -/

/-- C1, counterexample: at `f = 156000000` the `reset_ctr` register is
loaded with `int(f*1.1e-6) = 171`, but `ceil(f × 1.1e-6) = 172`; the
gate's ResetHold counter does not equal the claimed ceiling. -/
theorem C1_counterexample :
    (gateInit 156000000).reset_ctr = 171 ∧
    specResetHoldCeil 156000000 = 172 ∧ (171 : Nat) ≠ 172 := by
  refine ⟨?_, by decide, by decide⟩
  show reset_val 156000000 = 171
  decide

/-- C1 (amended): for every positive system-clock frequency `f`, the
gate loads its ResetHold counter with the truncation `f * 11 / 10^7` of
`f × 1.1e-6` and its ReadySettle counter with the truncation
`f * 11 / 10^3` of `f × 11e-3` (not the ceilings); each counter counts
down to exactly zero (after `reset_val f`, resp. `ready_val f`, ticks
of its phase) and never goes below zero (a tick at zero leaves it at
zero); and the realized phase durations of `reset_val f + 1` and
`ready_val f + 1` ticks strictly exceed the exact real-time products,
so the realized durations are rounded upward, never downward. -/
theorem C1_gate_counter_loads (f : Nat) (hf : 0 < f) :
    (gateInit f).reset_ctr = f * 11 / 10000000 ∧
    (gateInit f).ready_ctr = f * 11 / 1000 ∧
    (gateTick^[reset_val f] (gateInit f)).reset_ctr = 0 ∧
    (gateTick^[reset_val f + 1 + ready_val f] (gateInit f)).ready_ctr = 0 ∧
    (∀ s : GateState, s.reset_ctr = 0 → (gateTick s).reset_ctr = 0) ∧
    (∀ s : GateState, s.ready_ctr = 0 → (gateTick s).ready_ctr = 0) ∧
    f * 11 < 10000000 * (reset_val f + 1) ∧
    f * 11 < 1000 * (ready_val f + 1) := by
  refine ⟨rfl, rfl, ?_, ?_, ?_, ?_, ?_, ?_⟩
  · rw [gateTick_iterate_le f (Nat.le_refl _)]; simp
  · rw [gateTick_iterate_settle f (Nat.le_refl _)]; simp
  · intro s h; simp [gateTick, h]
  · intro s h; unfold gateTick; simp [h]
  · have h1 := Nat.div_add_mod (f * 11) 10000000
    have h2 : (f * 11) % 10000000 < 10000000 := Nat.mod_lt _ (by norm_num)
    unfold reset_val; omega
  · have h1 := Nat.div_add_mod (f * 11) 1000
    have h2 : (f * 11) % 1000 < 1000 := Nat.mod_lt _ (by norm_num)
    unfold ready_val; omega

/-- C1, witness: the amended theorem applied at `f = 156000000` and, for
the no-underflow conjunct, at a concrete gate state with a zeroed reset
counter. -/
theorem C1_witness :
    (gateTick { reset_ctr := 0, reset_done := true, si5324_rst_n := true,
                ready_ctr := 5, si5324_not_ready := true }).reset_ctr = 0 :=
  (C1_gate_counter_loads 156000000 (by norm_num)).2.2.2.2.1 _ rfl

/-- C2: for every frequency and every edge sequence, including ones
interleaved with external resets, the gate's not-ready output is still
asserted whenever fewer than `reset_val f + 1` ResetHold ticks plus
`ready_val f + 1` ReadySettle ticks have elapsed since the last reset
(or since power-up): the gate never reports Ready before both phases
have fully elapsed. -/
theorem C2_no_early_ready (f : Nat) (evs : List Bool)
    (h : trailingTicks evs < reset_val f + ready_val f + 2) :
    (gateRun f evs).si5324_not_ready = true := by
  rw [gateRun_eq_iterate]
  exact gateTick_not_ready_before f h

/-- C2, witness: a trace with a spurious external reset after which only
two plain ticks have elapsed. -/
theorem C2_witness :
    (gateRun 156000000 [false, false, true, false, false]).si5324_not_ready
      = true :=
  C2_no_early_ready 156000000 [false, false, true, false, false] (by decide)

/-- C6: in every reachable gate state, while the phase is a counting
phase with a nonzero active counter, a tick decrements that counter by
exactly one and keeps the phase; when the active counter has reached
zero the tick advances the phase forward; the phase rank never
decreases on a plain tick; and an edge with the external reset asserted
re-initializes the whole gate, counters included, to its reset state. -/
theorem C6_gate_invariant (f : Nat) (s : GateState) (hs : Reachable f s) :
    (phase s = GatePhase.ResetHold → 0 < s.reset_ctr →
      (gateTick s).reset_ctr = s.reset_ctr - 1 ∧
      phase (gateTick s) = GatePhase.ResetHold) ∧
    (phase s = GatePhase.ReadySettle → 0 < s.ready_ctr →
      (gateTick s).ready_ctr = s.ready_ctr - 1 ∧
      phase (gateTick s) = GatePhase.ReadySettle) ∧
    (phase s = GatePhase.ResetHold → s.reset_ctr = 0 →
      phase (gateTick s) = GatePhase.ReadySettle) ∧
    (phase s = GatePhase.ReadySettle → s.ready_ctr = 0 →
      phase (gateTick s) = GatePhase.Ready) ∧
    phaseRank (phase s) ≤ phaseRank (phase (gateTick s)) ∧
    gateStep f s true = gateInit f := by
  obtain ⟨rc, rd, rn, yc, nr⟩ := s
  refine ⟨?_, ?_, ?_, ?_, ?_, rfl⟩ <;>
    cases nr <;> cases rd <;>
      simp_all [phase, gateTick, phaseRank] <;>
      first
        | omega
        | (split_ifs <;> simp_all [phaseRank])

/-- C6, witness: the invariant applied to the initial (hence reachable)
state at 156 MHz; the tick from the initial state does not lower the
phase rank. -/
theorem C6_witness :
    phaseRank (phase (gateInit 156000000)) ≤
      phaseRank (phase (gateTick (gateInit 156000000))) :=
  (C6_gate_invariant 156000000 (gateInit 156000000) ⟨[], rfl⟩).2.2.2.2.1

/-- C3, counterexample: at 156 MHz and tick 1716172 the gate is still
in ReadySettle (not Ready, as the claim requires), and the sequencer
issues nothing on that tick — so the gate does not transition
`ReadySettle→Ready` at tick 1716172 and the sequencer does not execute
instruction 0 there. -/
theorem C3_counterexample :
    phase (gateTick^[1716172] (gateInit 156000000)) = GatePhase.ReadySettle ∧
    GatePhase.ReadySettle ≠ GatePhase.Ready ∧
    satAction 156000000 (fun _ _ => 0) 1716172 = none := by
  refine ⟨?_, by decide, ?_⟩
  · have hj : (1716000 : Nat) ≤ ready_val 156000000 := by
      rw [ready_val_156]
    have h := gateTick_iterate_settle 156000000 hj
    rw [show (1716172 : Nat) = reset_val 156000000 + 1 + 1716000 by
        rw [reset_val_156]]
    rw [h]
    rfl
  · apply satAction_none
    rw [reset_val_156, ready_val_156]
    norm_num

/-- C3 (amended): at `f = 156000000` Hz the counters load 171 and
1716000, the ResetHold phase spans ticks 0..171 (172 ticks), the gate
transitions `ResetHold→ReadySettle` at tick 172, remains in ReadySettle
through tick 1716172 (1716001 ticks) and transitions
`ReadySettle→Ready` at tick 1716173; the sequencer stays at program
counter 0 with no bus action for every tick in 0..1716172 and executes
instruction 0 (the frequency-configuration write of 156000 kHz) at tick
1716173, for every bus read-back. -/
theorem C3_end_to_end_156MHz :
    reset_val 156000000 = 171 ∧
    ready_val 156000000 = 1716000 ∧
    (∀ t, t < 172 →
      phase (gateTick^[t] (gateInit 156000000)) = GatePhase.ResetHold) ∧
    (∀ t, 172 ≤ t → t ≤ 1716172 →
      phase (gateTick^[t] (gateInit 156000000)) = GatePhase.ReadySettle) ∧
    phase (gateTick^[1716173] (gateInit 156000000)) = GatePhase.Ready ∧
    (∀ (reads : Nat → Nat → Nat) (t : Nat), t ≤ 1716172 →
      (satRun 156000000 reads t).seq = seqInit ∧
      satAction 156000000 reads t = none) ∧
    (∀ reads : Nat → Nat → Nat,
      satAction 156000000 reads 1716173 =
        some (I2C_CONFIG_ADDR, 156000)) := by
  have htot : reset_val 156000000 + ready_val 156000000 + 2 = 1716173 := by
    rw [reset_val_156, ready_val_156]
  refine ⟨reset_val_156, ready_val_156, ?_, ?_, ?_, ?_, ?_⟩
  · intro t ht
    have ht' : t ≤ reset_val 156000000 := by rw [reset_val_156]; omega
    rw [gateTick_iterate_le 156000000 ht']
    rfl
  · intro t ht1 ht2
    have hj : t - 172 ≤ ready_val 156000000 := by rw [ready_val_156]; omega
    have hsplit : t = reset_val 156000000 + 1 + (t - 172) := by
      rw [reset_val_156]; omega
    rw [hsplit, gateTick_iterate_settle 156000000 hj]
    rfl
  · rw [← htot, gateTick_iterate_ready]
    rfl
  · intro reads t ht
    constructor
    · exact satRun_seq_init 156000000 reads (by omega)
    · exact satAction_none 156000000 reads (by omega)
  · intro reads
    have h := satAction_first 156000000 reads
    rw [htot] at h
    simpa using h

/-- C3, witness: the amended end-to-end theorem applied at tick 100 of
the ResetHold phase. -/
theorem C3_witness :
    phase (gateTick^[100] (gateInit 156000000)) = GatePhase.ResetHold :=
  C3_end_to_end_156MHz.2.2.1 100 (by norm_num)

/-- C7: whenever the gate's not-ready output is asserted, the sequencer
is forced to its reset state (program counter 0, not halted) and issues
no bus action, regardless of its prior state; in the composed system
the gate's output is sampled the same tick, so the sequencer stays at
program counter 0 with no action through tick
`reset_val f + ready_val f + 1`, and the very first tick on which
not-ready is deasserted (`reset_val f + ready_val f + 2`) is the first
tick on which the sequencer acts — it issues instruction 0. -/
theorem C7_reset_dominates (f : Nat) (reads : Nat → Nat → Nat) :
    (∀ (g : GateState) (sq : SeqState) (read : Nat → Nat),
      g.si5324_not_ready = true →
      seqStep (get_i2c_program f) g.si5324_not_ready read sq =
        (seqInit, none)) ∧
    (∀ t, t ≤ reset_val f + ready_val f + 2 →
      (satRun f reads t).seq = seqInit) ∧
    (∀ t, t < reset_val f + ready_val f + 2 →
      satAction f reads t = none) ∧
    satAction f reads (reset_val f + ready_val f + 2) =
      some (I2C_CONFIG_ADDR, f / 1000) := by
  refine ⟨?_, ?_, ?_, satAction_first f reads⟩
  · intro g sq read h
    simp [seqStep, h]
  · intro t ht
    exact satRun_seq_init f reads ht
  · intro t ht
    exact satAction_none f reads ht

/-- C7, witness: at 156 MHz, a sequencer parked at program counter 57
is snapped back to the reset state by an asserted not-ready output. -/
theorem C7_witness :
    seqStep (get_i2c_program 156000000)
      (gateInit 156000000).si5324_not_ready (fun _ => 0)
      { pc := 57, halted := false } = (seqInit, none) :=
  (C7_reset_dominates 156000000 (fun _ _ => 0)).1 (gateInit 156000000)
    { pc := 57, halted := false } (fun _ => 0) rfl

/-- C9: a `WaitUntil` instruction has no timeout: if the bus read-back
at the awaited address never equals the expected value, a sequencer
parked at that instruction keeps program counter and un-halted status
unchanged forever — it never advances, never halts and reports no
error. -/
theorem C9_wait_no_timeout (program : List Inst) (a v pc0 : Nat)
    (hinst : program[pc0]? = some (Inst.InstWait a v))
    (reads : Nat → Nat → Nat) (hnever : ∀ t, reads t a ≠ v) :
    ∀ t, seqRun program reads { pc := pc0, halted := false } t =
      { pc := pc0, halted := false } := by
  intro t
  induction t with
  | zero => rfl
  | succ n ih =>
      show (seqStep program false (reads n)
        (seqRun program reads { pc := pc0, halted := false } n)).1 = _
      rw [ih, seqStep_wait_stay program (reads n) _ a v rfl hinst (hnever n)]

/-- C9, witness: a one-instruction program waiting for the idle status
on a bus that always reads back 0 is still at program counter 0, not
halted, after five ticks. -/
theorem C9_witness :
    seqRun [Inst.InstWait I2C_XFER_ADDR I2C_IDLE] (fun _ _ => 0)
      { pc := 0, halted := false } 5 = { pc := 0, halted := false } := by
  have hn : ∀ t : Nat, (fun _ _ => (0 : Nat)) t I2C_XFER_ADDR ≠ I2C_IDLE := by
    intro t
    show (0 : Nat) ≠ I2C_IDLE
    decide
  exact C9_wait_no_timeout [Inst.InstWait I2C_XFER_ADDR I2C_IDLE]
    I2C_XFER_ADDR I2C_IDLE 0 rfl (fun _ _ => 0) hn 5

theorem infix_of_tail_infix (f : Nat) (l : List Inst)
    (h : l <:+: i2c_program_tail) : l <:+: get_i2c_program f := by
  rw [get_i2c_program_eq_cons]
  exact List.infix_cons h

/-- C4, counterexample: the transaction table holds 21 three-octet
device-register writes, not the 22 the claim states, and accordingly
the compiled program has 220 instructions, not the 230 the claimed
shape (one select sub-sequence plus 22 register sub-sequences) would
produce. -/
theorem C4_counterexample :
    (i2c_sequence.countP fun sub => sub.length == 3) = 21 ∧
    (get_i2c_program 156000000).length = 220 ∧
    ¬(i2c_sequence.countP fun sub => sub.length == 3) = 22 ∧
    ¬(get_i2c_program 156000000).length = 230 := by decide

/-- C4 (amended): for every frequency the compiled program has exactly
the claimed shape over the 22 sub-sequences of the transaction table —
one bus-address-select write followed by 21 (not 22) device-register
writes: first the frequency-configuration write (in kHz, with no
following wait — the next instruction is the first start command), then
per sub-sequence a start command, a wait for idle, per payload byte a
write command and a wait for idle, then a stop command and a wait for
idle, and a terminating `End`; the program is never empty and its last
instruction is `End`. -/
theorem C4_program_shape (f : Nat) :
    get_i2c_program f = specProgramShape f i2c_sequence ∧
    i2c_sequence.length = 22 ∧
    (i2c_sequence.countP fun sub => sub.length == 3) = 21 ∧
    (get_i2c_program f)[0]? =
      some (Inst.InstWrite I2C_CONFIG_ADDR (f / 1000)) ∧
    (get_i2c_program f)[1]? =
      some (Inst.InstWrite I2C_XFER_ADDR I2C_START) ∧
    (get_i2c_program f).length = 220 ∧
    get_i2c_program f ≠ [] ∧
    (get_i2c_program f).getLast? = some Inst.InstEnd := by
  refine ⟨rfl, by decide, by decide, rfl, rfl, ?_, ?_, ?_⟩
  · rw [get_i2c_program_eq_cons, List.length_cons, i2c_program_tail_length]
  · rw [get_i2c_program_eq_cons]
    simp
  · show ([Inst.InstWrite I2C_CONFIG_ADDR (f / 1000)]
        ++ (i2c_sequence.flatMap fun subseq =>
              [Inst.InstWrite I2C_XFER_ADDR I2C_START,
               Inst.InstWait I2C_XFER_ADDR I2C_IDLE]
              ++ (subseq.flatMap fun octet =>
                    [Inst.InstWrite I2C_XFER_ADDR (I2C_WRITE ||| octet),
                     Inst.InstWait I2C_XFER_ADDR I2C_IDLE])
              ++ [Inst.InstWrite I2C_XFER_ADDR I2C_STOP,
                  Inst.InstWait I2C_XFER_ADDR I2C_IDLE])
        ++ [Inst.InstEnd]).getLast? = some Inst.InstEnd
    exact List.getLast?_concat _

/-- C4, witness: the amended shape theorem applied at a concrete
frequency: position 0 of the program for 7 Hz is the
frequency-configuration write of 0 kHz. -/
theorem C4_witness :
    (get_i2c_program 7)[0]? =
      some (Inst.InstWrite I2C_CONFIG_ADDR (7 / 1000)) :=
  (C4_program_shape 7).2.2.2.1

/-- C5: for the documented divider constants, each packed register byte
of the compiled program equals the fixed bit-packing formula of the
source exactly (register 25 holds `(N1_HS <<< 5) &&& 0xff = 192`,
registers 31-33 hold `NC1_LS` big-endian, register 40 packs the high
bits of `N2_HS` with the high bits of `N2_LS`, registers 41-42 hold the
remaining bytes of `N2_LS`, registers 43-45 the bytes of `N31`,
registers 46-48 the bytes of `N32`), and the corresponding
device-register write transaction appears in the compiled program for
every frequency. -/
theorem C5_register_packing (f : Nat) :
    ((N1_HS <<< 5) &&& 0xff) = 192 ∧
    regWriteBlock 25 ((N1_HS <<< 5) &&& 0xff) <:+: get_i2c_program f ∧
    ((NC1_LS >>> 16) &&& 0xff) = 0 ∧
    regWriteBlock 31 ((NC1_LS >>> 16) &&& 0xff) <:+: get_i2c_program f ∧
    ((NC1_LS >>> 8) &&& 0xff) = 0 ∧
    regWriteBlock 32 ((NC1_LS >>> 8) &&& 0xff) <:+: get_i2c_program f ∧
    (NC1_LS &&& 0xff) = 7 ∧
    regWriteBlock 33 (NC1_LS &&& 0xff) <:+: get_i2c_program f ∧
    ((N2_HS <<< 5) &&& 0xff ||| (N2_LS >>> 16) &&& 0xff) = 192 ∧
    regWriteBlock 40 ((N2_HS <<< 5) &&& 0xff ||| (N2_LS >>> 16) &&& 0xff)
      <:+: get_i2c_program f ∧
    ((N2_LS >>> 8) &&& 0xff) = 78 ∧
    regWriteBlock 41 ((N2_LS >>> 8) &&& 0xff) <:+: get_i2c_program f ∧
    (N2_LS &&& 0xff) = 143 ∧
    regWriteBlock 42 (N2_LS &&& 0xff) <:+: get_i2c_program f ∧
    ((N31 >>> 16) &&& 0xff) = 0 ∧
    regWriteBlock 43 ((N31 >>> 16) &&& 0xff) <:+: get_i2c_program f ∧
    ((N31 >>> 8) &&& 0xff) = 9 ∧
    regWriteBlock 44 ((N31 >>> 8) &&& 0xff) <:+: get_i2c_program f ∧
    (N31 &&& 0xff) = 209 ∧
    regWriteBlock 45 (N31 &&& 0xff) <:+: get_i2c_program f ∧
    ((N32 >>> 16) &&& 0xff) = 0 ∧
    regWriteBlock 46 ((N32 >>> 16) &&& 0xff) <:+: get_i2c_program f ∧
    ((N32 >>> 8) &&& 0xff) = 17 ∧
    regWriteBlock 47 ((N32 >>> 8) &&& 0xff) <:+: get_i2c_program f ∧
    (N32 &&& 0xff) = 244 ∧
    regWriteBlock 48 (N32 &&& 0xff) <:+: get_i2c_program f :=
  ⟨by decide, infix_of_tail_infix f _ (by decide),
   by decide, infix_of_tail_infix f _ (by decide),
   by decide, infix_of_tail_infix f _ (by decide),
   by decide, infix_of_tail_infix f _ (by decide),
   by decide, infix_of_tail_infix f _ (by decide),
   by decide, infix_of_tail_infix f _ (by decide),
   by decide, infix_of_tail_infix f _ (by decide),
   by decide, infix_of_tail_infix f _ (by decide),
   by decide, infix_of_tail_infix f _ (by decide),
   by decide, infix_of_tail_infix f _ (by decide),
   by decide, infix_of_tail_infix f _ (by decide),
   by decide, infix_of_tail_infix f _ (by decide),
   by decide, infix_of_tail_infix f _ (by decide)⟩

/-- C5, witness: the packing theorem applied at 156 MHz: the register-25
write transaction with payload byte 192 is part of the compiled
program. -/
theorem C5_witness :
    regWriteBlock 25 ((N1_HS <<< 5) &&& 0xff) <:+: get_i2c_program 156000000 :=
  (C5_register_packing 156000000).2.1

/-- C8: against the mock bus (any completion timing), the sequencer
never issues a command to the bus transfer register on a tick on which
the bus still reports a transaction in flight; and in the compiled
program, every write to the bus transfer register is immediately
followed by a wait for the idle status of the transfer register. -/
theorem C8_no_command_while_busy :
    (∀ (f : Nat) (completes : Nat → Bool) (t : Nat),
      issueWhileBusy (get_i2c_program f) completes t = false) ∧
    (∀ (f i v : Nat),
      (get_i2c_program f)[i]? = some (Inst.InstWrite I2C_XFER_ADDR v) →
      (get_i2c_program f)[i + 1]? =
        some (Inst.InstWait I2C_XFER_ADDR I2C_IDLE)) := by
  constructor
  · intro f completes t
    exact issueWhileBusy_false _ (xferWrite_followed_by_wait f) completes t
  · exact xferWrite_followed_by_wait

/-- C8, witness: instruction 1 of the compiled program at 156 MHz is
the first start command written to the transfer register, and by the
theorem instruction 2 is the wait for idle that follows it. -/
theorem C8_witness :
    (get_i2c_program 156000000)[2]? =
      some (Inst.InstWait I2C_XFER_ADDR I2C_IDLE) :=
  C8_no_command_while_busy.2 156000000 1 I2C_START (by decide)

/-- C10: the compiled programs for any two frequencies have the same
length (220 instructions) and agree at every position from 1 on;
position 0 holds in each case a write to the configuration register
whose value field is the respective frequency in kHz — so every bus
address, register offset and data byte is independent of the
frequency. -/
theorem C10_frequency_independence (f1 f2 : Nat) :
    (get_i2c_program f1).length = 220 ∧
    (get_i2c_program f1).length = (get_i2c_program f2).length ∧
    (∀ i, 1 ≤ i → (get_i2c_program f1)[i]? = (get_i2c_program f2)[i]?) ∧
    (get_i2c_program f1)[0]? =
      some (Inst.InstWrite I2C_CONFIG_ADDR (f1 / 1000)) ∧
    (get_i2c_program f2)[0]? =
      some (Inst.InstWrite I2C_CONFIG_ADDR (f2 / 1000)) := by
  refine ⟨?_, ?_, ?_, rfl, rfl⟩
  · rw [get_i2c_program_eq_cons, List.length_cons, i2c_program_tail_length]
  · rw [get_i2c_program_eq_cons, get_i2c_program_eq_cons]
    simp
  · intro i hi
    obtain ⟨j, rfl⟩ : ∃ j, i = j + 1 := ⟨i - 1, by omega⟩
    rw [get_i2c_program_eq_cons, get_i2c_program_eq_cons]
    simp

/-- C10, witness: the programs for 1 MHz and 2 MHz agree at position
5. -/
theorem C10_witness :
    (get_i2c_program 1000000)[5]? = (get_i2c_program 2000000)[5]? :=
  (C10_frequency_independence 1000000 2000000).2.2.1 5 (by norm_num)

end KC705Sat
